import Mathlib

/-!
Verification of the tetris scaffold: the `Color` enumeration from
`src/tetris/colors.hpp` and the `Board` class template from
`src/tetris/board.hpp` together with its constructor definition
(the translation unit including `board.hpp`).

The C++ member is `std::array<Color, width * height> grid`, where
`width` and `height` are `size_t` non-type template parameters, so the
element count is the product computed in `size_t` arithmetic, i.e.
modulo 2^64 on the usual 64-bit platform.  The constructor body is a
range-for loop assigning `Color::Background` to every cell of `grid`.
-/

/-- The cell color enumeration of `colors.hpp`: seven piece colors
(`Red` for I, `White` for J, `Magenta` for L, `Blue` for O, `Green`
for S, `Brown` for T, `Cyan` for Z) plus the `Background` sentinel. -/
inductive Color : Type
  | Red
  | White
  | Magenta
  | Blue
  | Green
  | Brown
  | Cyan
  | Background
  deriving DecidableEq, Fintype

/-- The number of values of `size_t` on the target platform: 2^64. -/
def sizeTMod : Nat := 18446744073709551616

/-- The element count of the member `std::array<Color, width * height>`:
the product of the two `size_t` template arguments is computed in
`size_t` arithmetic, hence taken modulo 2^64. -/
def gridSize (width height : Nat) : Nat := (width * height) % sizeTMod

/-- `Board<width, height>` of `board.hpp`: it owns the member array
`grid` whose element count is fixed by the type as `gridSize`. -/
structure Board (width height : Nat) : Type where
  grid : List Color
  size_eq : grid.length = gridSize width height

/-- Two boards of the same dimensions with equal grids are equal. -/
theorem Board.ext_grid {width height : Nat} {b₁ b₂ : Board width height}
    (hg : b₁.grid = b₂.grid) : b₁ = b₂ := by
  cases b₁
  cases b₂
  simp_all

/-- The constructor body `Board<width, height>::Board()`: a range-for
loop assigning `Color::Background` through every cell of `grid`.  It
runs on a board whose member array already has its full extent but
holds indeterminate contents, and overwrites each element in turn,
which is exactly a constant map over the sequence. -/
def Board.ctor (width height : Nat) (self : Board width height) :
    Board width height where
  grid := self.grid.map (fun _ => Color.Background)
  size_eq := by rw [List.length_map]; exact self.size_eq

/-- A board standing for the object before the constructor body runs:
the member array has its full extent and indeterminate contents (an
arbitrary placeholder value is used here). -/
def Board.uninit (width height : Nat) : Board width height where
  grid := List.replicate (gridSize width height) Color.Red
  size_eq := by simp

/-- Constructing a `Board<width, height>` value: the member array comes
into existence with its type-fixed extent, then the constructor body
runs over it. -/
def Board.construct (width height : Nat) : Board width height :=
  Board.ctor width height (Board.uninit width height)

/-- The source constructor performs no validation and contains no
throw or failure branch of any kind; its embedding as a fallible
computation is therefore constantly `Except.ok`. -/
def Board.constructE (width height : Nat) :
    Except String (Board width height) :=
  Except.ok (Board.construct width height)

/-- Modelled from the spec (Design Notes): the alternative
representation that carries width and height as runtime fields of a
single type, whose constructor yields a sequence of exactly
width*height cells, every one equal to `Background`. -/
structure RuntimeBoard : Type where
  width : Nat
  height : Nat
  grid : List Color

/-- Modelled from the spec: the runtime-parameterized constructor,
producing exactly `width * height` cells all equal to `Background`. -/
def RuntimeBoard.construct (width height : Nat) : RuntimeBoard where
  width := width
  height := height
  grid := List.replicate (width * height) Color.Background

/-- Mapping a constant function over a list yields a replicate of the
list's length. -/
theorem map_const_eq_replicate {α β : Type} (l : List α) (b : β) :
    l.map (fun _ => b) = List.replicate l.length b := by
  induction l with
  | nil => rfl
  | cons a t ih => simp [List.replicate_succ, ih]

/-- The grid produced by the constructor is a replicate of
`Background` of the type-fixed length. -/
theorem Board.ctor_grid_eq (width height : Nat) (self : Board width height) :
    (Board.ctor width height self).grid =
      List.replicate (gridSize width height) Color.Background := by
  show self.grid.map (fun _ => Color.Background) = _
  rw [map_const_eq_replicate, self.size_eq]

/-- Every element of the grid produced by the constructor equals
`Background`. -/
theorem Board.mem_ctor_grid (width height : Nat)
    (self : Board width height) (c : Color)
    (hc : c ∈ (Board.ctor width height self).grid) :
    c = Color.Background := by
  rw [Board.ctor_grid_eq] at hc
  exact List.eq_of_mem_replicate hc

/-- C1: for every positive width and height, immediately after the
constructor runs, every valid index i in [0, width*height) of the
backing sequence reads `Color.Background`. -/
theorem ctor_clears_every_cell (width height : Nat)
    (hw : 0 < width) (hh : 0 < height) (self : Board width height)
    (i : Nat) (hiwh : i < width * height)
    (hi : i < (Board.ctor width height self).grid.length) :
    (Board.ctor width height self).grid.get ⟨i, hi⟩ = Color.Background :=
  Board.mem_ctor_grid width height self _ (List.get_mem _ _ hi)

theorem ctor_clears_every_cell_witness :
    (Board.ctor 2 2 (Board.uninit 2 2)).grid.get
      ⟨1, by decide⟩ = Color.Background :=
  ctor_clears_every_cell 2 2 (by decide) (by decide)
    (Board.uninit 2 2) 1 (by decide) (by decide)

/-- C2 counterexample: at width = height = 2^32 (valid positive size_t
template arguments) the product 2^64 wraps to 0 in size_t arithmetic,
so the backing sequence does not have the exact mathematical product
of elements. -/
theorem construct_length_not_exact_at_two_pow_32 :
    (Board.construct 4294967296 4294967296).grid.length ≠
      4294967296 * 4294967296 := by decide

/-- C2 (amended): for all positive width and height whose product fits
in size_t (is below 2^64), constructing the board yields a backing
sequence of exactly width*height elements. -/
theorem construct_length_exact (width height : Nat)
    (hw : 0 < width) (hh : 0 < height)
    (hfit : width * height < sizeTMod) :
    (Board.construct width height).grid.length = width * height := by
  rw [(Board.construct width height).size_eq, gridSize]
  exact Nat.mod_eq_of_lt hfit

theorem construct_length_exact_witness :
    (Board.construct 4 4).grid.length = 4 * 4 :=
  construct_length_exact 4 4 (by decide) (by decide) (by decide)

/-- C3: the `Color` type has exactly eight variants, and `Background`
differs from each of the seven playfield colors under equality. -/
theorem color_eight_variants_background_distinct :
    Fintype.card Color = 8 ∧
      (Color.Background ≠ Color.Red ∧ Color.Background ≠ Color.White ∧
       Color.Background ≠ Color.Magenta ∧ Color.Background ≠ Color.Blue ∧
       Color.Background ≠ Color.Green ∧ Color.Background ≠ Color.Brown ∧
       Color.Background ≠ Color.Cyan) := by
  refine ⟨?_, by decide⟩
  decide

/-- C4: board construction has no failure path: for all positive
dimensions the embedded constructor returns `Except.ok`, producing a
grid of the type-fixed length with every cell equal to `Background`. -/
theorem construct_never_fails (width height : Nat)
    (hw : 0 < width) (hh : 0 < height) :
    ∃ b : Board width height,
      Board.constructE width height = Except.ok b ∧
        b.grid.length = gridSize width height ∧
        ∀ c ∈ b.grid, c = Color.Background := by
  refine ⟨Board.construct width height, rfl,
    (Board.construct width height).size_eq, ?_⟩
  intro c hc
  exact Board.mem_ctor_grid width height (Board.uninit width height) c hc

theorem construct_never_fails_witness :
    ∃ b : Board 3 5,
      Board.constructE 3 5 = Except.ok b ∧
        b.grid.length = gridSize 3 5 ∧
        ∀ c ∈ b.grid, c = Color.Background :=
  construct_never_fails 3 5 (by decide) (by decide)

/-- C5: concrete scenarios: `Board<4, 4>` yields 16 cells, all equal
to `Background` and none equal to any of the seven piece colors, and
`Board<1, 1>` yields a single cell equal to `Background`. -/
theorem construct_4x4_and_1x1_scenarios :
    ((Board.construct 4 4).grid.length = 16 ∧
      (∀ c ∈ (Board.construct 4 4).grid,
        c = Color.Background ∧
        c ≠ Color.Red ∧ c ≠ Color.White ∧ c ≠ Color.Magenta ∧
        c ≠ Color.Blue ∧ c ≠ Color.Green ∧ c ≠ Color.Brown ∧
        c ≠ Color.Cyan)) ∧
    ((Board.construct 1 1).grid.length = 1 ∧
      ∀ c ∈ (Board.construct 1 1).grid, c = Color.Background) := by
  decide

/-- C6: when either dimension is zero the board constructs
successfully with a backing sequence of zero elements, and the fill
loop is a no-op: the constructor returns the board unchanged. -/
theorem zero_dimension_board_empty (width height : Nat)
    (hz : width = 0 ∨ height = 0) (self : Board width height) :
    (Board.ctor width height self).grid.length = 0 ∧
      Board.ctor width height self = self := by
  have hsize : gridSize width height = 0 := by
    rcases hz with h | h <;> simp [gridSize, h, sizeTMod]
  have hnil : self.grid = [] :=
    List.eq_nil_of_length_eq_zero (self.size_eq.trans hsize)
  constructor
  · show (self.grid.map fun _ => Color.Background).length = 0
    rw [hnil]
    rfl
  · refine Board.ext_grid ?_
    show (self.grid.map fun _ => Color.Background) = self.grid
    rw [hnil]
    rfl

theorem zero_dimension_board_empty_witness :
    (Board.ctor 0 0 (Board.uninit 0 0)).grid.length = 0 ∧
      Board.ctor 0 0 (Board.uninit 0 0) = Board.uninit 0 0 :=
  zero_dimension_board_empty 0 0 (Or.inl rfl) (Board.uninit 0 0)

/-- C7 counterexample: at width = height = 2^32 the claimed
equivalence fails as stated: the template board's backing sequence
does not have width*height elements (its size wraps to 0), so the two
representations do not both satisfy the stated contract there. -/
theorem representations_diverge_at_two_pow_32 :
    ¬ ((Board.construct 4294967296 4294967296).grid.length =
          4294967296 * 4294967296 ∧
        (RuntimeBoard.construct 4294967296 4294967296).grid.length =
          4294967296 * 4294967296) := by
  intro hcontra
  exact absurd hcontra.1 (by decide)

/-- C7 (amended): for all positive width and height whose product fits
in size_t, the runtime-field representation and the template board
produce identical backing sequences — the same width*height elements,
every one equal to `Background` — so the two representations are
behaviorally equivalent on the stated contracts. -/
theorem runtime_board_equiv_template_board (width height : Nat)
    (hw : 0 < width) (hh : 0 < height)
    (hfit : width * height < sizeTMod) :
    (RuntimeBoard.construct width height).grid =
        (Board.construct width height).grid ∧
      (RuntimeBoard.construct width height).grid.length = width * height ∧
      ∀ c ∈ (RuntimeBoard.construct width height).grid,
        c = Color.Background := by
  have hgrid : (Board.construct width height).grid =
      List.replicate (width * height) Color.Background := by
    rw [Board.construct, Board.ctor_grid_eq, gridSize,
      Nat.mod_eq_of_lt hfit]
  refine ⟨?_, ?_, ?_⟩
  · rw [hgrid]
    rfl
  · show (List.replicate (width * height) Color.Background).length = _
    rw [List.length_replicate]
  · intro c hc
    exact List.eq_of_mem_replicate hc

theorem runtime_board_equiv_template_board_witness :
    (RuntimeBoard.construct 2 3).grid = (Board.construct 2 3).grid ∧
      (RuntimeBoard.construct 2 3).grid.length = 2 * 3 ∧
      ∀ c ∈ (RuntimeBoard.construct 2 3).grid, c = Color.Background :=
  runtime_board_equiv_template_board 2 3 (by decide) (by decide) (by decide)

/-- C9: for size_t template arguments whose mathematical product
reaches 2^64, the backing array has (width*height) mod 2^64 elements
and not the mathematical product width*height. -/
theorem grid_length_wraps_mod_two_pow_64 (width height : Nat)
    (hw : width < sizeTMod) (hh : height < sizeTMod)
    (hover : sizeTMod ≤ width * height) (self : Board width height) :
    (Board.ctor width height self).grid.length =
        (width * height) % sizeTMod ∧
      (Board.ctor width height self).grid.length ≠ width * height := by
  have hlen : (Board.ctor width height self).grid.length =
      (width * height) % sizeTMod := (Board.ctor width height self).size_eq
  refine ⟨hlen, ?_⟩
  rw [hlen]
  have hmod : (width * height) % sizeTMod < sizeTMod :=
    Nat.mod_lt _ (by decide)
  omega

theorem grid_length_wraps_witness :
    (Board.ctor 4294967296 4294967296
        (Board.uninit 4294967296 4294967296)).grid.length =
        (4294967296 * 4294967296) % sizeTMod ∧
      (Board.ctor 4294967296 4294967296
        (Board.uninit 4294967296 4294967296)).grid.length ≠
        4294967296 * 4294967296 :=
  grid_length_wraps_mod_two_pow_64 4294967296 4294967296
    (by decide) (by decide) (by decide)
    (Board.uninit 4294967296 4294967296)

/-- C10: the constructor is deterministic: it consults nothing beyond
the dimensions, so running it on any two boards of the same dimensions
(whatever their indeterminate initial contents) produces element-wise
identical grids. -/
theorem ctor_deterministic (width height : Nat)
    (u₁ u₂ : Board width height) :
    Board.ctor width height u₁ = Board.ctor width height u₂ := by
  refine Board.ext_grid ?_
  rw [Board.ctor_grid_eq, Board.ctor_grid_eq]
